import Mathlib

/-!
Shallow embedding of the sampling-and-aggregation core of `casmonitor.py`
(a Flask-based host monitor).  Python floats are modelled as `ℚ`, cumulative
counters as `ℤ` (Python integer subtraction may go negative), fallible
sub-reads as `Except String`, and the module-level mutable globals
(`system_state`, the history deques and `SYSTEM_LOG`) as an explicit
`Globals` record threaded through each call.
-/

/-- Capacity constants from the configuration block of `casmonitor.py`. -/
def MAX_LOG_ENTRIES : Nat := 100

/-- Capacity of `cpu_history` (`CPU_HISTORY_SIZE = 60`). -/
def CPU_HISTORY_SIZE : Nat := 60

/-- Capacity of `memory_history`. -/
def MEMORY_HISTORY_SIZE : Nat := 60

/-- Capacity of `network_history`. -/
def NETWORK_HISTORY_SIZE : Nat := 60

/-- Capacity of `process_history` (`PROCESS_HISTORY_SIZE = 20`). -/
def PROCESS_HISTORY_SIZE : Nat := 20

/-- Capacity of `temperature_history`. -/
def TEMPERATURE_HISTORY_SIZE : Nat := 60

/-- Capacity of `disk_history`. -/
def DISK_HISTORY_SIZE : Nat := 60

/-- One entry of the `SYSTEM_LOG` ring: `{'timestamp': ..., 'level': ...,
'message': ...}` built by `log_system_event`.  The timestamp string
(`datetime.now().strftime(...)` in the source) is passed in explicitly. -/
structure LogEntry where
  timestamp : String
  level : String
  message : String
deriving DecidableEq, Repr

/-- Embedding of `log_system_event(level, message)`: append the new entry;
if the list has grown past `MAX_LOG_ENTRIES`, `pop(0)` the oldest entry.
The `datetime.now()` timestamp is the explicit argument `now`. -/
def log_system_event (now level message : String) (log : List LogEntry) :
    List LogEntry :=
  let l := log ++ [⟨now, level, message⟩]
  if MAX_LOG_ENTRIES < l.length then l.tail else l

/-- Embedding of `deque(maxlen := c).append(x)`: add `x` at the tail and,
when the capacity is exceeded, evict the head.  (A Python bounded deque
maintains `len ≤ maxlen`, so at most one eviction per append.) -/
def dequeAppend (c : Nat) (xs : List α) (x : α) : List α :=
  let ys := xs ++ [x]
  if c < ys.length then ys.tail else ys

/-- Embedding of the `/api/system_log` route: `SYSTEM_LOG[-50:]`, the last
fifty entries (the whole list when it is shorter). -/
def get_system_log (log : List LogEntry) : List LogEntry :=
  log.drop (log.length - 50)

/-- A snapshot of `psutil.net_io_counters()`: the cumulative byte counters
used by the rate computation. -/
structure NetReading where
  bytes_sent : ℤ
  bytes_recv : ℤ
deriving DecidableEq, Repr

/-- The `system_state['network_stats']` dictionary. -/
structure NetStats where
  bytes_sent_per_sec : ℚ
  bytes_recv_per_sec : ℚ
deriving DecidableEq, Repr

/-- The parts of the module-level `system_state` dictionary that the network
rate computation reads and writes. -/
structure NetState where
  last_network : Option NetReading
  last_time : ℚ
  network_stats : NetStats
deriving DecidableEq, Repr

/-- Embedding of the network-statistics section of `get_system_info`
(lines 119–130).  The three successive `time.time()` calls are the explicit
arguments `tInit` (line 122, inside the first-cycle branch), `tDelta`
(line 123) and `tStore` (line 130):

```
if not system_state['last_network']:
    system_state['last_network'] = network; system_state['last_time'] = tInit
time_delta = tDelta - system_state['last_time']
if time_delta > 0:
    system_state['network_stats'] = {(curr - prev) / time_delta, ...}
system_state['last_network'] = network; system_state['last_time'] = tStore
``` -/
def updateNetwork (network : NetReading) (tInit tDelta tStore : ℚ)
    (st : NetState) : NetState :=
  let st1 := if st.last_network.isNone then
      { st with last_network := some network, last_time := tInit }
    else st
  let prev := st1.last_network.getD network
  let time_delta := tDelta - st1.last_time
  let st2 := if 0 < time_delta then
      { st1 with network_stats :=
          { bytes_sent_per_sec :=
              ((network.bytes_sent : ℚ) - (prev.bytes_sent : ℚ)) / time_delta
            bytes_recv_per_sec :=
              ((network.bytes_recv : ℚ) - (prev.bytes_recv : ℚ)) / time_delta } }
    else st1
  { st2 with last_network := some network, last_time := tStore }

/-- One alert dictionary from the `System Alerts` section. -/
structure Alert where
  type : String
  icon : String
  message : String
deriving DecidableEq, Repr

/-- Embedding of the `System Alerts` section of `get_system_info`
(lines 171–189): CPU above 80 appends a danger alert, memory above 80 and
root-disk above 80 each append a warning alert, in that order. -/
def computeAlerts (cpu_percent mem_percent disk_percent : ℚ) : List Alert :=
  (if 80 < cpu_percent then
      [⟨"danger", "exclamation-triangle-fill",
        "High CPU usage: " ++ toString cpu_percent ++ "%"⟩]
    else []) ++
  (if 80 < mem_percent then
      [⟨"warning", "exclamation-triangle-fill",
        "High memory usage: " ++ toString mem_percent ++ "%"⟩]
    else []) ++
  (if 80 < disk_percent then
      [⟨"warning", "exclamation-triangle-fill",
        "Low disk space: " ++ toString disk_percent ++ "% used"⟩]
    else [])

/-- One row of the live process table as fetched for
`get_top_processes_by_cpu` / `get_top_processes_by_memory`; the metric is
`none` when psutil reports `None` for it. -/
structure ProcRow where
  pid : Nat
  name : String
  metric : Option ℚ
deriving DecidableEq, Repr

/-- Metric value of a row whose metric is present (rows reaching the sort
have passed the `is not None` filter). -/
def ProcRow.val (p : ProcRow) : ℚ := p.metric.getD 0

/-- The comparison Python's stable `sorted(key := metric, reverse := True)`
induces: `a` may precede `b` exactly when `b`'s metric does not exceed
`a`'s. -/
def procDescLe (a b : ProcRow) : Bool := decide (b.val ≤ a.val)

/-- Embedding of `get_top_processes_by_cpu` / `get_top_processes_by_memory`
(both have the same shape, differing only in which psutil field feeds
`metric`): keep rows whose metric is not `None`, stable-sort descending by
the metric (Python's `sorted` is stable, as is `List.mergeSort`), and
truncate to the first ten. -/
def get_top_processes (procs : List ProcRow) : List ProcRow :=
  (((procs.filter fun p => p.metric.isSome).mergeSort procDescLe).take 10)

/-- The `psutil.virtual_memory()` gauge (fields used by the snapshot and
the alerts). -/
structure MemGauge where
  total : ℚ
  used : ℚ
  available : ℚ
  percent : ℚ
deriving DecidableEq, Repr

/-- The `psutil.disk_usage('/')` gauge. -/
structure DiskGauge where
  total : ℚ
  used : ℚ
  free : ℚ
  percent : ℚ
deriving DecidableEq, Repr

/-- One raw sensor entry from `psutil.sensors_temperatures()`:
`entry.high` may be `None`. -/
structure TempEntry where
  label : String
  current : ℚ
  high : Option ℚ
deriving DecidableEq, Repr

/-- One temperature dictionary appended to `temperatures` (after the
`entry.high or 100` defaulting). -/
structure TempReading where
  label : String
  current : ℚ
  high : ℚ
deriving DecidableEq, Repr

/-- Python's `entry.high or 100`: `None` — and, because `or` tests
truthiness, also `0.0` — falls back to `100`. -/
def orDefault100 (h : Option ℚ) : ℚ :=
  match h with
  | none => 100
  | some v => if v = 0 then 100 else v

/-- One processed disk-partition dictionary.  The `humanize.naturalsize`
strings and per-partition `PermissionError` skipping are upstream of the
rows handed to the snapshot, so a row is modelled post-processing. -/
structure PartRow where
  device : String
  mountpoint : String
  fstype : String
  total : String
  used : String
  free : String
  percent : ℚ
deriving DecidableEq, Repr

/-- The unguarded psutil reads at the top of `get_system_info` (lines
104–119): CPU, memory, root disk, boot time/uptime and the cumulative
network counters.  An exception in any of them escapes to the outer
`except` (no global state has been mutated before line 120). -/
structure Gauges where
  cpu_percent : ℚ
  cpu_cores : Nat
  cpu_freq : ℚ
  memory : MemGauge
  disk : DiskGauge
  uptime : String
  boot_time : String
  network : NetReading
deriving DecidableEq, Repr

/-- One cycle's worth of external inputs: each fallible read is an
`Except`, the successive `time.time()` calls are `tInit`/`tDelta`/`tStore`,
and `logTime` is the `datetime.now()` stamp used by any `log_system_event`
call made during the cycle. -/
structure Env where
  gauges : Except String Gauges
  temps : Except String (List TempEntry)
  partitions : Except String (List PartRow)
  tInit : ℚ
  tDelta : ℚ
  tStore : ℚ
  logTime : String
deriving Repr

/-- The mutable parts of `system_state` that `get_system_info` touches:
the network-rate sub-state plus the `temperature_data` / `disk_data`
caches.  (`is_running` and the `last_*_check` stamps are never read or
written by `get_system_info` and are omitted.) -/
structure SystemState where
  net : NetState
  temperature_data : List TempReading
  disk_data : List PartRow
deriving DecidableEq, Repr

/-- The module-level history deques that `get_system_info` appends to.
(`process_history` is declared in the source but never appended.) -/
structure Histories where
  cpu_history : List ℚ
  memory_history : List ℚ
  network_history : List NetStats
  temperature_history : List (List TempReading)
  disk_history : List (List PartRow)
deriving DecidableEq, Repr

/-- All module-level mutable state: `system_state`, the history deques and
`SYSTEM_LOG`. -/
structure Globals where
  state : SystemState
  hist : Histories
  log : List LogEntry
deriving Repr

/-- The dictionary returned by a successful `get_system_info` cycle. -/
structure SystemInfo where
  cpu_percent : ℚ
  cpu_cores : Nat
  cpu_freq : ℚ
  memory : MemGauge
  disk : DiskGauge
  uptime : String
  boot_time : String
  network : NetStats
  temperatures : List TempReading
  alerts : List Alert
  disk_partitions : List PartRow
deriving DecidableEq, Repr

/-- Embedding of `get_system_info` (lines 100–213).  A failure of the
unguarded reads hits the outer `except`: the error is logged and the empty
dictionary — modelled as `none` — is returned with all other state
untouched.  On success: the network rates are updated, the guarded
temperature and partition sections degrade to `[]` plus a warning log
entry on failure, alerts are derived, the histories are appended, and the
full dictionary is returned. -/
def getSystemInfo (env : Env) (g : Globals) : Option SystemInfo × Globals :=
  match env.gauges with
  | .error e =>
      (none, { g with log := log_system_event env.logTime "error"
                        ("Error getting system info: " ++ e) g.log })
  | .ok gg =>
    let net := updateNetwork gg.network env.tInit env.tDelta env.tStore g.state.net
    let tempRes :=
      match env.temps with
      | .ok entries =>
          let ts := entries.map fun (en : TempEntry) =>
            { label := en.label, current := en.current,
              high := orDefault100 en.high : TempReading }
          (ts, ts, g.log)
      | .error m =>
          ([], g.state.temperature_data,
           log_system_event env.logTime "warning"
             ("Could not get temperature readings: " ++ m) g.log)
    let temperatures := tempRes.1
    let diskRes :=
      match env.partitions with
      | .ok parts => (parts, parts, tempRes.2.2)
      | .error m =>
          ([], g.state.disk_data,
           log_system_event env.logTime "warning"
             ("Could not get disk partitions: " ++ m) tempRes.2.2)
    let disk_partitions := diskRes.1
    let alerts := computeAlerts gg.cpu_percent gg.memory.percent gg.disk.percent
    let hist :=
      { cpu_history := dequeAppend CPU_HISTORY_SIZE g.hist.cpu_history gg.cpu_percent
        memory_history :=
          dequeAppend MEMORY_HISTORY_SIZE g.hist.memory_history gg.memory.percent
        network_history :=
          dequeAppend NETWORK_HISTORY_SIZE g.hist.network_history net.network_stats
        temperature_history :=
          dequeAppend TEMPERATURE_HISTORY_SIZE g.hist.temperature_history temperatures
        disk_history :=
          dequeAppend DISK_HISTORY_SIZE g.hist.disk_history disk_partitions : Histories }
    (some
      { cpu_percent := gg.cpu_percent, cpu_cores := gg.cpu_cores
        cpu_freq := gg.cpu_freq, memory := gg.memory, disk := gg.disk
        uptime := gg.uptime, boot_time := gg.boot_time
        network := net.network_stats, temperatures := temperatures
        alerts := alerts, disk_partitions := disk_partitions },
     { state := { net := net, temperature_data := tempRes.2.1,
                  disk_data := diskRes.2.1 },
       hist := hist, log := diskRes.2.2 })

/-- Embedding of the `/api/system_info` route: it serves exactly what
`get_system_info()` returns for this cycle — there is no snapshot cache
anywhere in the source. -/
def system_info (env : Env) (g : Globals) : Option SystemInfo × Globals :=
  getSystemInfo env g

/-- Example memory gauge for concrete runs. -/
def memEx : MemGauge := ⟨16, 8, 8, 50⟩

/-- Example root-disk gauge for concrete runs. -/
def diskEx : DiskGauge := ⟨100, 40, 60, 40⟩

/-- Example of a successful set of unguarded reads. -/
def gaugesEx : Gauges :=
  { cpu_percent := 10, cpu_cores := 4, cpu_freq := 2, memory := memEx,
    disk := diskEx, uptime := "1:00:00", boot_time := "2026-01-01 00:00:00",
    network := ⟨1000, 2000⟩ }

/-- A cycle on which every read succeeds. -/
def envOkEx : Env :=
  { gauges := .ok gaugesEx, temps := .ok [], partitions := .ok [],
    tInit := 0, tDelta := 1, tStore := 1, logTime := "t0" }

/-- A cycle on which the counter source is unreachable: the unguarded reads
raise, reaching the outer `except` of `get_system_info`. -/
def envFailEx : Env :=
  { envOkEx with gauges := .error "unreachable", logTime := "t1" }

/-- A cycle on which only the temperature read fails. -/
def envTempFailEx : Env :=
  { envOkEx with temps := .error "sensors broken", logTime := "t2" }

/-- The initial module-level state (`system_state` as defined at import
time, empty histories, empty `SYSTEM_LOG`). -/
def g0Ex : Globals :=
  { state := { net := { last_network := none, last_time := 0,
                        network_stats := ⟨0, 0⟩ },
               temperature_data := [], disk_data := [] },
    hist := ⟨[], [], [], [], []⟩, log := [] }

/-- A network sub-state holding a previous reading of 1000 bytes each way
taken at time 0. -/
def stPrev1000 : NetState :=
  { last_network := some ⟨1000, 1000⟩, last_time := 0,
    network_stats := ⟨0, 0⟩ }

/-- A network sub-state holding a previous reading of 10 bytes each way
taken at time 0. -/
def stPrev10 : NetState :=
  { last_network := some ⟨10, 10⟩, last_time := 0, network_stats := ⟨7, 7⟩ }

/-- The process table of the spec's ranking example: pids 1, 2, 3 with
metric values 5, 90, 90. -/
def procsEx : List ProcRow :=
  [⟨1, "a", some 5⟩, ⟨2, "b", some 90⟩, ⟨3, "c", some 90⟩]

/-- A memory gauge at 85 percent. -/
def memHotEx : MemGauge := { memEx with percent := 85 }

/-- A root-disk gauge at 50 percent. -/
def diskHotEx : DiskGauge := { diskEx with percent := 50 }

/-- Gauges crossing the alert thresholds: CPU 81, memory 85, disk 50. -/
def gaugesHotEx : Gauges :=
  { gaugesEx with cpu_percent := 81, memory := memHotEx, disk := diskHotEx }

/-- A successful cycle whose gauges cross the alert thresholds. -/
def envHotEx : Env := { envOkEx with gauges := .ok gaugesHotEx }

/- ------------------------------------------------------------------ -/
/- Helper lemmas -/
/- ------------------------------------------------------------------ -/

/-- A bounded-deque append on an in-capacity buffer is a drop at the
front of the extended buffer. -/
theorem dequeAppend_eq_drop {α : Type _} (c : Nat) (xs : List α) (x : α)
    (h : xs.length ≤ c) :
    dequeAppend c xs x = (xs ++ [x]).drop (xs.length + 1 - c) := by
  unfold dequeAppend
  by_cases hc : c < (xs ++ [x]).length
  · have h1 : xs.length + 1 - c = 1 := by
      simp only [List.length_append, List.length_singleton] at hc; omega
    simp only [if_pos hc, h1, ← List.drop_one]
  · have h0 : xs.length + 1 - c = 0 := by
      simp only [List.length_append, List.length_singleton] at hc; omega
    simp only [if_neg hc, h0, List.drop_zero]

/-- Length of a bounded-deque append on an in-capacity buffer. -/
theorem length_dequeAppend {α : Type _} (c : Nat) (xs : List α) (x : α)
    (h : xs.length ≤ c) :
    (dequeAppend c xs x).length = min (xs.length + 1) c := by
  rw [dequeAppend_eq_drop c xs x h, List.length_drop]
  simp only [List.length_append, List.length_singleton]
  omega

/-- Folding bounded-deque appends over an in-capacity buffer keeps exactly
the most recent `c` of all items ever present. -/
theorem foldl_dequeAppend {α : Type _} (c : Nat) (items : List α) :
    ∀ xs : List α, xs.length ≤ c →
      items.foldl (dequeAppend c) xs =
        (xs ++ items).drop (xs.length + items.length - c) := by
  induction items with
  | nil =>
      intro xs h
      simp [Nat.sub_eq_zero_of_le h]
  | cons x items ih =>
      intro xs h
      have hd : xs.length + 1 - c ≤ (xs ++ [x]).length := by
        simp only [List.length_append, List.length_singleton]; omega
      have hlen : (dequeAppend c xs x).length ≤ c := by
        rw [length_dequeAppend c xs x h]; omega
      rw [List.foldl_cons, ih _ hlen]
      rw [length_dequeAppend c xs x h]
      rw [dequeAppend_eq_drop c xs x h]
      rw [← List.drop_append_of_le_length hd, List.drop_drop]
      rw [List.append_assoc, List.singleton_append]
      congr 1
      simp only [List.length_append, List.length_singleton, List.length_cons]
      omega

/- ------------------------------------------------------------------ -/
/- Claim theorems -/
/- ------------------------------------------------------------------ -/

/-- C5: appending `c + k` items to a rolling history of capacity `c`
(starting from any in-capacity contents) leaves exactly `c` items, equal to
the last `c` items appended in their original relative order; one append
never takes an in-capacity history over its capacity; and the configured
capacities are 60 by default and 20 for the process history. -/
theorem rollingHistory_bounded {α : Type} (c k : Nat) (xs items : List α)
    (hxs : xs.length ≤ c) (hlen : items.length = c + k) :
    (items.foldl (dequeAppend c) xs).length = c ∧
    items.foldl (dequeAppend c) xs = items.drop k ∧
    (∀ (ys : List α) (y : α), ys.length ≤ c →
      (dequeAppend c ys y).length ≤ c) ∧
    CPU_HISTORY_SIZE = 60 ∧ PROCESS_HISTORY_SIZE = 20 := by
  have hmain : items.foldl (dequeAppend c) xs = items.drop k := by
    rw [foldl_dequeAppend c items xs hxs, hlen]
    have hidx : xs.length + (c + k) - c = xs.length + k := by omega
    rw [hidx, ← List.drop_drop, List.drop_left]
  refine ⟨?_, hmain, ?_, rfl, rfl⟩
  · rw [hmain, List.length_drop, hlen]; omega
  · intro ys y hy
    rw [length_dequeAppend c ys y hy]; omega

/-- Witness for C5 at capacity 2 with 3 = 2 + 1 appended items. -/
theorem rollingHistory_bounded_witness :
    (([10, 20, 30] : List Nat).foldl (dequeAppend 2) []).length = 2 ∧
    ([10, 20, 30] : List Nat).foldl (dequeAppend 2) [] =
      ([10, 20, 30] : List Nat).drop 1 :=
  ⟨(rollingHistory_bounded 2 1 [] [10, 20, 30] (by decide) (by decide)).1,
   (rollingHistory_bounded 2 1 [] [10, 20, 30] (by decide) (by decide)).2.1⟩

set_option maxRecDepth 4000 in
/-- C6: recording 101 events into the capacity-100 `SYSTEM_LOG` leaves
exactly 100 entries with the first-recorded event absent and the newest
present; a record on an in-capacity log never exceeds 100 entries; and on
a full log the record evicts exactly the oldest entry (FIFO). -/
theorem eventLog_eviction :
    ((List.range 101).foldl
        (fun log i => log_system_event (toString i) "info" "event" log)
        []).length = 100 ∧
    (⟨"0", "info", "event"⟩ : LogEntry) ∉
      (List.range 101).foldl
        (fun log i => log_system_event (toString i) "info" "event" log) [] ∧
    (⟨"100", "info", "event"⟩ : LogEntry) ∈
      (List.range 101).foldl
        (fun log i => log_system_event (toString i) "info" "event" log) [] ∧
    (∀ (log : List LogEntry) (now lvl msg : String),
      log.length ≤ MAX_LOG_ENTRIES →
      (log_system_event now lvl msg log).length ≤ MAX_LOG_ENTRIES) ∧
    (∀ (log : List LogEntry) (now lvl msg : String),
      log.length = MAX_LOG_ENTRIES →
      log_system_event now lvl msg log = log.tail ++ [⟨now, lvl, msg⟩]) := by
  refine ⟨by decide, by decide, by decide, ?_, ?_⟩
  · intro log now lvl msg h
    have h100 : MAX_LOG_ENTRIES = 100 := rfl
    have heq : log_system_event now lvl msg log =
        if MAX_LOG_ENTRIES < (log ++ [(⟨now, lvl, msg⟩ : LogEntry)]).length
        then (log ++ [(⟨now, lvl, msg⟩ : LogEntry)]).tail
        else log ++ [(⟨now, lvl, msg⟩ : LogEntry)] := rfl
    rw [heq]
    split
    · simp only [List.length_tail, List.length_append, List.length_singleton]
      omega
    · rename_i hc
      simp only [List.length_append, List.length_singleton] at hc ⊢
      omega
  · intro log now lvl msg h
    have h100 : MAX_LOG_ENTRIES = 100 := rfl
    have hlog : 1 ≤ log.length := by omega
    have hc : MAX_LOG_ENTRIES <
        (log ++ [(⟨now, lvl, msg⟩ : LogEntry)]).length := by
      simp only [List.length_append, List.length_singleton]
      omega
    have heq : log_system_event now lvl msg log =
        if MAX_LOG_ENTRIES < (log ++ [(⟨now, lvl, msg⟩ : LogEntry)]).length
        then (log ++ [(⟨now, lvl, msg⟩ : LogEntry)]).tail
        else log ++ [(⟨now, lvl, msg⟩ : LogEntry)] := rfl
    rw [heq]
    simp only [if_pos hc, ← List.drop_one]
    rw [List.drop_append_of_le_length hlog, List.drop_one]

/-- Witness for C6: one record into an empty log, and one record into a
full log of 100 identical entries. -/
theorem eventLog_eviction_witness :
    (log_system_event "t" "info" "m" []).length ≤ MAX_LOG_ENTRIES ∧
    log_system_event "t" "info" "m"
        (List.replicate 100 (⟨"s", "info", "o"⟩ : LogEntry)) =
      (List.replicate 100 (⟨"s", "info", "o"⟩ : LogEntry)).tail ++
        [⟨"t", "info", "m"⟩] :=
  ⟨eventLog_eviction.2.2.2.1 [] "t" "info" "m" (by decide),
   eventLog_eviction.2.2.2.2 _ "t" "info" "m" (by simp [MAX_LOG_ENTRIES])⟩

/-- C10: the `/api/system_log` route returns at most the 50 most recently
recorded entries — exactly `min 50 (length)` of them — and the returned
sequence is a suffix of the stored log (so insertion order is kept). -/
theorem systemLog_query_spec (log : List LogEntry) :
    (get_system_log log).length = min 50 log.length ∧
    (get_system_log log).length ≤ 50 ∧
    get_system_log log <:+ log := by
  refine ⟨?_, ?_, List.drop_suffix _ _⟩
  · unfold get_system_log; rw [List.length_drop]; omega
  · unfold get_system_log; rw [List.length_drop]; omega

/-- Unconditionally, every cycle stores the current reading and the final
`time.time()` stamp as the new previous state (lines 129–130). -/
theorem updateNetwork_stores (net : NetReading) (tI tD tS : ℚ)
    (st : NetState) :
    (updateNetwork net tI tD tS st).last_network = some net ∧
    (updateNetwork net tI tD tS st).last_time = tS :=
  ⟨rfl, rfl⟩

/-- On a first cycle (no stored reading, default zero rates) the resulting
rates are exactly zero. -/
theorem updateNetwork_first (net : NetReading) (tI tD tS : ℚ)
    (st : NetState) (h1 : st.last_network = none)
    (h2 : st.network_stats = ⟨0, 0⟩) :
    (updateNetwork net tI tD tS st).network_stats = ⟨0, 0⟩ := by
  by_cases hdt : (0 : ℚ) < tD - tI
  · simp [updateNetwork, h1, hdt, sub_self, zero_div]
  · simp [updateNetwork, h1, hdt, h2]

/-- C1 is false on the code: the source computes
`(curr - prev) / time_delta` with no counter-reset branch, so with
previous reading 1000 at time 0 and current reading 10 at time 1 the
computed rate is −990 bytes/sec — strictly negative, not 0. -/
theorem rateReset_counterexample :
    (updateNetwork ⟨10, 10⟩ 1 1 1 stPrev1000).network_stats =
      ⟨-990, -990⟩ ∧
    (updateNetwork ⟨10, 10⟩ 1 1 1
        stPrev1000).network_stats.bytes_sent_per_sec < 0 ∧
    (updateNetwork ⟨10, 10⟩ 1 1 1
        stPrev1000).network_stats.bytes_recv_per_sec < 0 := by
  have h : (updateNetwork ⟨10, 10⟩ 1 1 1 stPrev1000).network_stats =
      ⟨-990, -990⟩ := by
    norm_num [updateNetwork, stPrev1000]
  refine ⟨h, ?_, ?_⟩ <;> rw [h] <;> norm_num

/-- C1 amended: when the current timestamp is strictly past the stored
one, the cycle's rate is the signed quotient
`(curr − prev) / elapsed` — this is non-negative whenever the counter did
not decrease, but is negative (not zero) on a counter wrap/reset — and the
stored previous reading is still updated to the current value with the
final timestamp. -/
theorem rate_update_amended (net : NetReading) (tI tD tS : ℚ)
    (st : NetState) (prev : NetReading)
    (hprev : st.last_network = some prev) (hdt : st.last_time < tD) :
    (updateNetwork net tI tD tS st).network_stats =
      ⟨((net.bytes_sent : ℚ) - (prev.bytes_sent : ℚ)) / (tD - st.last_time),
       ((net.bytes_recv : ℚ) - (prev.bytes_recv : ℚ)) /
         (tD - st.last_time)⟩ ∧
    (updateNetwork net tI tD tS st).last_network = some net ∧
    (updateNetwork net tI tD tS st).last_time = tS ∧
    (prev.bytes_sent ≤ net.bytes_sent →
      0 ≤ (updateNetwork net tI tD tS
            st).network_stats.bytes_sent_per_sec) ∧
    (prev.bytes_recv ≤ net.bytes_recv →
      0 ≤ (updateNetwork net tI tD tS
            st).network_stats.bytes_recv_per_sec) := by
  have hpos : (0 : ℚ) < tD - st.last_time := sub_pos.mpr hdt
  have hstats : (updateNetwork net tI tD tS st).network_stats =
      ⟨((net.bytes_sent : ℚ) - (prev.bytes_sent : ℚ)) /
          (tD - st.last_time),
       ((net.bytes_recv : ℚ) - (prev.bytes_recv : ℚ)) /
          (tD - st.last_time)⟩ := by
    simp [updateNetwork, hprev, hpos]
  refine ⟨hstats, rfl, rfl, ?_, ?_⟩
  · intro h
    rw [hstats]
    exact div_nonneg (sub_nonneg.mpr (Int.cast_le.mpr h)) hpos.le
  · intro h
    rw [hstats]
    exact div_nonneg (sub_nonneg.mpr (Int.cast_le.mpr h)) hpos.le

/-- Witness for the amended C1: previous reading 10 at time 0, current
reading (20, 30) at time 2, giving rates 5 and 10 bytes/sec. -/
theorem rate_update_amended_witness :
    (updateNetwork ⟨20, 30⟩ 0 2 2 stPrev10).network_stats =
      ⟨(((20 : ℤ) : ℚ) - ((10 : ℤ) : ℚ)) / (2 - stPrev10.last_time),
       (((30 : ℤ) : ℚ) - ((10 : ℤ) : ℚ)) / (2 - stPrev10.last_time)⟩ ∧
    (updateNetwork ⟨20, 30⟩ 0 2 2 stPrev10).last_network =
      some ⟨20, 30⟩ ∧
    (updateNetwork ⟨20, 30⟩ 0 2 2 stPrev10).last_time = 2 ∧
    ((10 : ℤ) ≤ 20 →
      0 ≤ (updateNetwork ⟨20, 30⟩ 0 2 2
            stPrev10).network_stats.bytes_sent_per_sec) ∧
    ((10 : ℤ) ≤ 30 →
      0 ≤ (updateNetwork ⟨20, 30⟩ 0 2 2
            stPrev10).network_stats.bytes_recv_per_sec) :=
  rate_update_amended ⟨20, 30⟩ 0 2 2 stPrev10 ⟨10, 10⟩ rfl
    (by norm_num [stPrev10])

/-- C4: when the elapsed time `tD − last_time` is zero or negative and a
previous reading is stored, the cycle leaves the rate sample unchanged. -/
theorem zeroElapsed_keeps_rate (net : NetReading) (tI tD tS : ℚ)
    (st : NetState) (hsome : st.last_network.isSome = true)
    (hdt : tD ≤ st.last_time) :
    (updateNetwork net tI tD tS st).network_stats = st.network_stats := by
  obtain ⟨prev, hprev⟩ := Option.isSome_iff_exists.mp hsome
  have hneg : ¬ ((0 : ℚ) < tD - st.last_time) := by
    simp only [not_lt]
    linarith
  simp [updateNetwork, hprev, hneg]

/-- Witness for C4: equal timestamps (both 0) keep the stored rate
sample (7, 7). -/
theorem zeroElapsed_keeps_rate_witness :
    (updateNetwork ⟨99, 99⟩ 0 0 5 stPrev10).network_stats =
      stPrev10.network_stats :=
  zeroElapsed_keeps_rate ⟨99, 99⟩ 0 0 5 stPrev10 rfl
    (by norm_num [stPrev10])

/-- Counting the alerts that `computeAlerts` emits: one danger alert
exactly when CPU exceeds 80, one warning alert per exceeded memory/disk
threshold, and nothing else. -/
theorem computeAlerts_counts (cpu memp dp : ℚ) :
    ((computeAlerts cpu memp dp).filter fun a => a.type == "danger").length
      = (if 80 < cpu then 1 else 0) ∧
    ((computeAlerts cpu memp dp).filter fun a => a.type == "warning").length
      = (if 80 < memp then 1 else 0) + (if 80 < dp then 1 else 0) ∧
    (computeAlerts cpu memp dp).length
      = (if 80 < cpu then 1 else 0) + (if 80 < memp then 1 else 0)
        + (if 80 < dp then 1 else 0) := by
  unfold computeAlerts
  split_ifs <;> simp [List.filter]

/-- C9: on the very first cycle — no stored network reading, the default
zero rate sample — the snapshot reports rates of exactly zero, and the
previous reading is initialized to the current reading with the final
timestamp. -/
theorem firstCycle_zero_rates (env : Env) (g : Globals) (gg : Gauges)
    (hg : env.gauges = .ok gg)
    (hnone : g.state.net.last_network = none)
    (hstats : g.state.net.network_stats = ⟨0, 0⟩) :
    ∃ info, (getSystemInfo env g).1 = some info ∧
      info.network = ⟨0, 0⟩ ∧
      (getSystemInfo env g).2.state.net.last_network = some gg.network ∧
      (getSystemInfo env g).2.state.net.last_time = env.tStore := by
  obtain ⟨ge, te, pe, tI, tD, tS, lt⟩ := env
  simp only at hg
  subst hg
  exact ⟨_, rfl, updateNetwork_first gg.network tI tD tS g.state.net hnone hstats,
    (updateNetwork_stores gg.network tI tD tS g.state.net).1,
    (updateNetwork_stores gg.network tI tD tS g.state.net).2⟩

/-- Witness for C9: the very first cycle on the initial globals. -/
theorem firstCycle_zero_rates_witness :
    ∃ info, (getSystemInfo envOkEx g0Ex).1 = some info ∧
      info.network = ⟨0, 0⟩ ∧
      (getSystemInfo envOkEx g0Ex).2.state.net.last_network =
        some gaugesEx.network ∧
      (getSystemInfo envOkEx g0Ex).2.state.net.last_time =
        envOkEx.tStore :=
  firstCycle_zero_rates envOkEx g0Ex gaugesEx rfl rfl rfl

/-- C3: the snapshot's alert list contains exactly one danger alert when
CPU exceeds 80 (none otherwise), one warning alert for memory above 80,
one warning alert for root-disk above 80, and nothing else. -/
theorem alert_thresholds (env : Env) (g : Globals) (gg : Gauges)
    (hg : env.gauges = .ok gg) :
    ∃ info, (getSystemInfo env g).1 = some info ∧
      info.alerts =
        computeAlerts gg.cpu_percent gg.memory.percent gg.disk.percent ∧
      ((info.alerts.filter fun a => a.type == "danger").length
        = if 80 < gg.cpu_percent then 1 else 0) ∧
      ((info.alerts.filter fun a => a.type == "warning").length
        = (if 80 < gg.memory.percent then 1 else 0)
          + (if 80 < gg.disk.percent then 1 else 0)) ∧
      (info.alerts.length
        = (if 80 < gg.cpu_percent then 1 else 0)
          + (if 80 < gg.memory.percent then 1 else 0)
          + (if 80 < gg.disk.percent then 1 else 0)) := by
  obtain ⟨ge, te, pe, tI, tD, tS, lt⟩ := env
  simp only at hg
  subst hg
  exact ⟨_, rfl, rfl,
    (computeAlerts_counts gg.cpu_percent gg.memory.percent gg.disk.percent).1,
    (computeAlerts_counts gg.cpu_percent gg.memory.percent gg.disk.percent).2.1,
    (computeAlerts_counts gg.cpu_percent gg.memory.percent gg.disk.percent).2.2⟩

/-- Witness for C3: CPU 81, memory 85, disk 50 — exactly one danger alert
(CPU) and one warning alert (memory). -/
theorem alert_thresholds_witness :
    ∃ info, (getSystemInfo envHotEx g0Ex).1 = some info ∧
      info.alerts = computeAlerts gaugesHotEx.cpu_percent
        gaugesHotEx.memory.percent gaugesHotEx.disk.percent ∧
      ((info.alerts.filter fun a => a.type == "danger").length
        = if 80 < gaugesHotEx.cpu_percent then 1 else 0) ∧
      ((info.alerts.filter fun a => a.type == "warning").length
        = (if 80 < gaugesHotEx.memory.percent then 1 else 0)
          + (if 80 < gaugesHotEx.disk.percent then 1 else 0)) ∧
      (info.alerts.length
        = (if 80 < gaugesHotEx.cpu_percent then 1 else 0)
          + (if 80 < gaugesHotEx.memory.percent then 1 else 0)
          + (if 80 < gaugesHotEx.disk.percent then 1 else 0)) :=
  alert_thresholds envHotEx g0Ex gaugesHotEx rfl

/-- C8: when the temperature read fails but the cycle's unguarded reads
succeed, the cycle still completes and returns a full snapshot (nothing
propagates to the caller), its temperature list is empty, exactly one
warning-level entry is recorded in the event log for the failure, and the
cached `temperature_data` is left unchanged. -/
theorem tempFailure_degrades (env : Env) (g : Globals) (gg : Gauges)
    (m : String) (parts : List PartRow)
    (hg : env.gauges = .ok gg) (ht : env.temps = .error m)
    (hp : env.partitions = .ok parts) :
    ∃ info, (getSystemInfo env g).1 = some info ∧
      info.temperatures = [] ∧
      (getSystemInfo env g).2.log =
        log_system_event env.logTime "warning"
          ("Could not get temperature readings: " ++ m) g.log ∧
      (getSystemInfo env g).2.state.temperature_data =
        g.state.temperature_data := by
  obtain ⟨ge, te, pe, tI, tD, tS, lt⟩ := env
  simp only at hg ht hp
  subst hg
  subst ht
  subst hp
  exact ⟨_, rfl, rfl, rfl, rfl⟩

/-- Witness for C8: a cycle whose temperature read raises. -/
theorem tempFailure_degrades_witness :
    ∃ info, (getSystemInfo envTempFailEx g0Ex).1 = some info ∧
      info.temperatures = [] ∧
      (getSystemInfo envTempFailEx g0Ex).2.log =
        log_system_event envTempFailEx.logTime "warning"
          ("Could not get temperature readings: " ++ "sensors broken")
          g0Ex.log ∧
      (getSystemInfo envTempFailEx g0Ex).2.state.temperature_data =
        g0Ex.state.temperature_data :=
  tempFailure_degrades envTempFailEx g0Ex gaugesEx "sensors broken" []
    rfl rfl rfl

/-- C2 is false on the code: the `/api/system_info` route serves exactly
what `get_system_info()` returns, and on a total cycle failure that is the
empty dictionary — here, after a first successful cycle published a valid
snapshot, the failing second cycle serves the empty snapshot anyway, so a
previously cached snapshot is neither retained nor served. -/
theorem snapshotRetention_counterexample :
    (system_info envOkEx g0Ex).1.isSome = true ∧
    (system_info envFailEx (system_info envOkEx g0Ex).2).1 = none := by
  exact ⟨rfl, rfl⟩

/-- C2 amended: when the whole cycle fails, the failure is logged at error
severity, and the caller of the route is served the empty snapshot — the
code keeps no cache of previous snapshots; the failing cycle merely leaves
the sampling state, the histories and the earlier log entries
unchanged. -/
theorem cycleFailure_serves_empty (env : Env) (g : Globals) (e : String)
    (hg : env.gauges = .error e) :
    (system_info env g).1 = none ∧
    (system_info env g).2.log =
      log_system_event env.logTime "error"
        ("Error getting system info: " ++ e) g.log ∧
    (system_info env g).2.state = g.state ∧
    (system_info env g).2.hist = g.hist := by
  obtain ⟨ge, te, pe, tI, tD, tS, lt⟩ := env
  simp only at hg
  subst hg
  exact ⟨rfl, rfl, rfl, rfl⟩

/-- Witness for the amended C2: the unreachable-source cycle. -/
theorem cycleFailure_serves_empty_witness :
    (system_info envFailEx g0Ex).1 = none ∧
    (system_info envFailEx g0Ex).2.log =
      log_system_event envFailEx.logTime "error"
        ("Error getting system info: " ++ "unreachable") g0Ex.log ∧
    (system_info envFailEx g0Ex).2.state = g0Ex.state ∧
    (system_info envFailEx g0Ex).2.hist = g0Ex.hist :=
  cycleFailure_serves_empty envFailEx g0Ex "unreachable" rfl

/-- The descending comparison is transitive. -/
theorem procDescLe_trans : ∀ (a b c : ProcRow),
    procDescLe a b → procDescLe b c → procDescLe a c := by
  intro a b c hab hbc
  simp only [procDescLe, decide_eq_true_eq] at *
  exact le_trans hbc hab

/-- The descending comparison is total. -/
theorem procDescLe_total : ∀ (a b : ProcRow),
    procDescLe a b || procDescLe b a := by
  intro a b
  simp only [procDescLe]
  rcases le_total a.val b.val with h | h <;> simp [h]

/-- C7: the top-processes query returns at most ten rows, sorted in
descending metric order; every returned row comes from the input table and
has a non-null metric; any descending-sorted sublist of the filtered input
survives into the sorted list (stability: equal-metric rows keep their
enumeration order); the result is exactly the 10-truncation of the stable
descending sort of the filtered table (so calls on identical input agree);
and on the spec's example the tie between pids 2 and 3 is kept in
enumeration order. -/
theorem topProcesses_spec (procs : List ProcRow) :
    (get_top_processes procs).length ≤ 10 ∧
    (get_top_processes procs).Pairwise (fun a b => b.val ≤ a.val) ∧
    (∀ p, p ∈ get_top_processes procs → p ∈ procs ∧ p.metric.isSome) ∧
    (∀ c : List ProcRow, c.Pairwise (fun a b => b.val ≤ a.val) →
      c.Sublist (procs.filter fun p => p.metric.isSome) →
      c.Sublist
        ((procs.filter fun p => p.metric.isSome).mergeSort procDescLe)) ∧
    get_top_processes procs =
      (((procs.filter fun p => p.metric.isSome).mergeSort
          procDescLe).take 10) ∧
    get_top_processes procsEx =
      [⟨2, "b", some 90⟩, ⟨3, "c", some 90⟩, ⟨1, "a", some 5⟩] := by
  refine ⟨List.length_take_le _ _, ?_, ?_, ?_, rfl, ?_⟩
  · have hs := List.sorted_mergeSort procDescLe_trans procDescLe_total
      (procs.filter fun p => p.metric.isSome)
    have ht : (get_top_processes procs).Pairwise
        (fun a b => procDescLe a b) :=
      hs.sublist (List.take_sublist _ _)
    exact ht.imp (by simp only [procDescLe, decide_eq_true_eq]; exact id)
  · intro p hp
    have h1 : p ∈ (procs.filter fun p => p.metric.isSome).mergeSort
        procDescLe := List.mem_of_mem_take hp
    have h2 := List.mem_mergeSort.mp h1
    exact List.mem_filter.mp h2
  · intro c hpw hsub
    exact List.sublist_mergeSort procDescLe_trans procDescLe_total
      (hpw.imp (by simp only [procDescLe, decide_eq_true_eq]; exact id))
      hsub
  · norm_num [get_top_processes, procsEx, List.mergeSort, List.splitInTwo,
      List.merge, procDescLe, ProcRow.val]

/-- Witness for C7 at the spec's three-row example. -/
theorem topProcesses_spec_witness :
    (get_top_processes procsEx).length ≤ 10 ∧
    ([⟨2, "b", some 90⟩, ⟨3, "c", some 90⟩] : List ProcRow).Sublist
      ((procsEx.filter fun p => p.metric.isSome).mergeSort procDescLe) ∧
    ((⟨2, "b", some 90⟩ : ProcRow) ∈ procsEx ∧
      (⟨2, "b", some 90⟩ : ProcRow).metric.isSome) := by
  refine ⟨(topProcesses_spec procsEx).1, ?_, ?_⟩
  · exact (topProcesses_spec procsEx).2.2.2.1 _ (by decide) (by decide)
  · have h6 := (topProcesses_spec procsEx).2.2.2.2.2
    exact (topProcesses_spec procsEx).2.2.1 _ (by rw [h6]; decide)
